import Mathlib

/-!
Shallow embedding of the mcumgr image-management core:

* `src/unnamed/part_000` (second document): the slot/swap-state model
  (`img_mgmt_state_flags`, `img_mgmt_state_any_pending`,
  `img_mgmt_slot_in_use`) and the state-transition operations
  (`img_mgmt_state_set_pending`, `img_mgmt_state_confirm`).
* `src/cmd/img_mgmt/port/zephyr/src/zephyr_img_mgmt.c`: the Zephyr port
  (`img_mgmt_impl_swap_type`, `zephyr_img_mgmt_flash_area_id`,
  `img_mgmt_get_unused_slot_area_id`, `img_mgmt_vercmp`,
  `img_mgmt_impl_write_pending`, `img_mgmt_impl_write_confirmed`,
  `img_mgmt_impl_upload_inspect`).

External collaborators (flash I/O, bootloader trailer access, image-header
reading) are modelled as function-valued fields of an environment record,
following the interfaces the specification assigns to them.  C machine
integers are modelled as `Int`/`Nat` with explicit `% 2^w` where the width
matters (notably the `uint8_t` truncations in `zephyr_img_mgmt_flash_area_id`
and in the alignment clamp of `img_mgmt_impl_upload_inspect`).
`assert` in the C source is modelled as a fatal error value.
-/

namespace Mcumgr

/-! ## Constants from the mcumgr / mcuboot headers -/

def MGMT_ERR_EOK : Int := 0
def MGMT_ERR_EUNKNOWN : Int := 1
def MGMT_ERR_ENOMEM : Int := 2
def MGMT_ERR_EINVAL : Int := 3
def MGMT_ERR_EBADSTATE : Int := 6

/-- Swap-type values reported by the bootloader (`BOOT_SWAP_TYPE_*`). -/
def BOOT_SWAP_TYPE_NONE : Int := 1

def BOOT_SWAP_TYPE_TEST : Int := 2

def BOOT_SWAP_TYPE_PERM : Int := 3

def BOOT_SWAP_TYPE_REVERT : Int := 4

/-- Swap-type values used by the management core (`IMG_MGMT_SWAP_TYPE_*`). -/
def IMG_MGMT_SWAP_TYPE_NONE : Int := 0

def IMG_MGMT_SWAP_TYPE_TEST : Int := 1

def IMG_MGMT_SWAP_TYPE_PERM : Int := 2

def IMG_MGMT_SWAP_TYPE_REVERT : Int := 3

def IMG_MGMT_DATA_SHA_LEN : Nat := 32

/-- Size in bytes of `struct image_header`. -/
def IMAGE_HEADER_SIZE : Nat := 32

def IMAGE_MAGIC : Nat := 0x96f3b83d

def IMAGE_F_ROM_FIXED_ADDR : Nat := 0x100

/-! ## Data model -/

/-- Fatal conditions: a C `assert` firing, modelled as an error value. -/
inductive FatalErr where
  /-- The `assert(0)` in the default branch of `img_mgmt_impl_swap_type`:
  the bootloader reported a swap type outside the four known values. -/
  | swapStateInconsistent
  /-- The `assert(query_slot == 0 || query_slot == 1)` guarding
  `img_mgmt_state_flags`. -/
  | badSlotAssert
deriving DecidableEq, Repr

/-- The derived per-slot status bit set (`IMG_MGMT_STATE_F_*`), modelled as
one Boolean per bit. -/
structure SlotFlags where
  pending : Bool
  confirmed : Bool
  active : Bool
  permanent : Bool
deriving DecidableEq, Repr

/-- The empty flag set (`flags = 0`). -/
def SlotFlags.none : SlotFlags := ⟨false, false, false, false⟩

/-- Translation of bootloader swap-type values into `IMG_MGMT_SWAP_TYPE_*`
values (`img_mgmt_impl_swap_type` in `zephyr_img_mgmt.c`).  The C default
branch executes `assert(0)`; the `return IMG_MGMT_SWAP_TYPE_NONE` after it is
unreachable with assertions enabled, so the branch is modelled as the fatal
`swapStateInconsistent` error. -/
def img_mgmt_impl_swap_type (swap : Int) : Except FatalErr Int :=
  if swap = BOOT_SWAP_TYPE_NONE then .ok IMG_MGMT_SWAP_TYPE_NONE
  else if swap = BOOT_SWAP_TYPE_TEST then .ok IMG_MGMT_SWAP_TYPE_TEST
  else if swap = BOOT_SWAP_TYPE_PERM then .ok IMG_MGMT_SWAP_TYPE_PERM
  else if swap = BOOT_SWAP_TYPE_REVERT then .ok IMG_MGMT_SWAP_TYPE_REVERT
  else .error .swapStateInconsistent

/-- The `switch (swap_type)` body of `img_mgmt_state_flags`
(`src/unnamed/part_000`, non-`CONFIG_BOARD_SCORPIO` path), as a function of
the already-translated swap type, the current boot slot
(`IMG_MGMT_BOOT_CURR_SLOT`) and the queried slot.  The `default` branch only
logs and leaves `flags` at zero. -/
def img_mgmt_state_flags_of_swap (swap_type : Int) (curr query_slot : Nat) :
    SlotFlags :=
  if swap_type = IMG_MGMT_SWAP_TYPE_NONE then
    if query_slot = curr then
      { SlotFlags.none with confirmed := true, active := true }
    else SlotFlags.none
  else if swap_type = IMG_MGMT_SWAP_TYPE_TEST then
    if query_slot = curr then { SlotFlags.none with confirmed := true }
    else { SlotFlags.none with pending := true }
  else if swap_type = IMG_MGMT_SWAP_TYPE_PERM then
    if query_slot = curr then { SlotFlags.none with confirmed := true }
    else { SlotFlags.none with pending := true, permanent := true }
  else if swap_type = IMG_MGMT_SWAP_TYPE_REVERT then
    if query_slot = curr then { SlotFlags.none with active := true }
    else { SlotFlags.none with confirmed := true }
  else SlotFlags.none

/-- Model of `img_mgmt_state_flags` (`src/unnamed/part_000`): asserts the queried slot
is 0 or 1, obtains the swap type through `img_mgmt_impl_swap_type` and
derives the flag set.  `swap` is the raw bootloader-reported value. -/
def img_mgmt_state_flags (swap : Int) (curr query_slot : Nat) :
    Except FatalErr SlotFlags :=
  if query_slot ≠ 0 ∧ query_slot ≠ 1 then .error .badSlotAssert
  else
    (img_mgmt_impl_swap_type swap).map
      (fun t => img_mgmt_state_flags_of_swap t curr query_slot)

/-- Model of `img_mgmt_state_any_pending`: whether either slot has the pending flag;
the C `||` short-circuits, queried slot 1 only if slot 0 is not pending. -/
def img_mgmt_state_any_pending (swap : Int) (curr : Nat) :
    Except FatalErr Bool := do
  let f0 ← img_mgmt_state_flags swap curr 0
  if f0.pending then
    return true
  else
    let f1 ← img_mgmt_state_flags swap curr 1
    return f1.pending

/-- Model of `img_mgmt_slot_in_use`: the slot has any of
{`ACTIVE`, `CONFIRMED`, `PENDING`}. -/
def img_mgmt_slot_in_use (swap : Int) (curr slot : Nat) :
    Except FatalErr Bool :=
  (img_mgmt_state_flags swap curr slot).map
    (fun f => f.active || f.confirmed || f.pending)

/-- Number of slots among {0, 1} whose derived flags include `ACTIVE`; a slot
whose derivation faults contributes nothing. -/
def activeSlotCount (swap : Int) (curr : Nat) : Nat :=
  (([0, 1] : List Nat).filter (fun q =>
    match img_mgmt_state_flags swap curr q with
    | .ok f => f.active
    | .error _ => false)).length

/-! ## Zephyr port: flash map, slot selector, version comparison -/

/-- Compile-time flash-map configuration: the `FLASH_AREA_ID(image_N)`
constants (which are `uint8_t` values) and whether the optional
`image_2`/`image_3` labels exist. -/
structure FlashMapCfg where
  id0 : Nat
  id1 : Nat
  hasImage2 : Bool
  id2 : Nat
  hasImage3 : Bool
  id3 : Nat

/-- Model of `zephyr_img_mgmt_flash_area_id`: maps an absolute slot number to a flash
area id.  The C local `fa_id` is a `uint8_t`, so the `default` branch's
`fa_id = -1` stores 255 and the function returns 255 (not -1) for unknown
slots; the configured ids are reduced `% 256` for the same reason. -/
def zephyr_img_mgmt_flash_area_id (cfg : FlashMapCfg) (slot : Int) : Int :=
  let fa_id : Nat :=
    if slot = 0 then cfg.id0 % 256
    else if slot = 1 then cfg.id1 % 256
    else if slot = 2 ∧ cfg.hasImage2 = true then cfg.id2 % 256
    else if slot = 3 ∧ cfg.hasImage3 = true then cfg.id3 % 256
    else 255
  (fa_id : Int)

/-- Image version quadruple (`struct image_version`). -/
structure ImageVersion where
  iv_major : Nat
  iv_minor : Nat
  iv_revision : Nat
  iv_build_num : Nat
deriving DecidableEq, Repr

/-- Model of `img_mgmt_vercmp`: three-way comparison of image versions.  The build
number is deliberately not compared. -/
def img_mgmt_vercmp (a b : ImageVersion) : Int :=
  if a.iv_major < b.iv_major then -1
  else if a.iv_major > b.iv_major then 1
  else if a.iv_minor < b.iv_minor then -1
  else if a.iv_minor > b.iv_minor then 1
  else if a.iv_revision < b.iv_revision then -1
  else if a.iv_revision > b.iv_revision then 1
  else 0

/-- Environment record bundling the compile-time configuration and the
external collaborators (bootloader, flash, image-header reader), each at the
interface the specification assigns to it.  A `.error` value of a
collaborator field models the corresponding C call returning a nonzero
error code. -/
structure ImgEnv where
  /-- Value returned by `mcuboot_swap_type()`. -/
  bootSwap : Int
  /-- Model of `IMG_MGMT_BOOT_CURR_SLOT`: the currently-booting slot. -/
  currSlot : Nat
  cfg : FlashMapCfg
  /-- Model of `IMG_MGMT_LAZY_ERASE`: deferred erase-on-write mode. -/
  lazyErase : Bool
  /-- Model of `CONFIG_IMG_MGMT_REJECT_DIRECT_XIP_MISMATCHED_SLOT`. -/
  rejectXip : Bool
  /-- Model of `img_mgmt_my_version`: version of the currently-running image. -/
  myVersion : Except Unit ImageVersion
  /-- Model of `zephyr_img_mgmt_flash_check_empty` on an area id (raw flash scan). -/
  checkEmpty : Int → Except Unit Bool
  /-- Model of `flash_area_open` + `flash_area_align` on an area id. -/
  flashAlign : Int → Except Unit Nat
  /-- Model of `flash_area_open` + `fa->fa_off` on an area id. -/
  faOff : Int → Except Unit Int
  /-- Model of `boot_request_upgrade`. -/
  bootRequestUpgrade : Bool → Except Unit Unit
  /-- Model of `boot_write_img_confirmed`. -/
  bootWriteConfirmed : Except Unit Unit
  /-- Model of `img_mgmt_read_info`: content hash of the image in a slot, `none` when
  the read fails (no readable image). -/
  readInfoHash : Nat → Option (List Nat)

/-- Model of `img_mgmt_get_unused_slot_area_id`: slot -1 requests auto-selection over
slots 0 and 1 in increasing order; slots 0/1 are checked for being unused;
slots ≥ 2 are resolved directly. -/
def img_mgmt_get_unused_slot_area_id (env : ImgEnv) (slot : Int) :
    Except FatalErr Int := do
  if slot < -1 then
    return -1
  else if slot = -1 then
    let u0 ← img_mgmt_slot_in_use env.bootSwap env.currSlot 0
    if u0 = false then
      let area_id := zephyr_img_mgmt_flash_area_id env.cfg 0
      if area_id ≠ -1 then
        return area_id
    let u1 ← img_mgmt_slot_in_use env.bootSwap env.currSlot 1
    if u1 = false then
      let area_id := zephyr_img_mgmt_flash_area_id env.cfg 1
      if area_id ≠ -1 then
        return area_id
    return -1
  else
    let s ← (if slot < 2 then do
        let u ← img_mgmt_slot_in_use env.bootSwap env.currSlot slot.toNat
        pure (if u = false then slot else -1)
      else pure slot)
    if s ≠ -1 then
      return zephyr_img_mgmt_flash_area_id env.cfg s
    else
      return -1

/-! ## State-transition operations (set-pending, confirm) -/

/-- Observable interactions of the transition operations with their
collaborators, recorded in order. -/
inductive Event where
  /-- Records that `boot_request_upgrade(permanent)` was invoked. -/
  | requestedUpgrade (permanent : Bool)
  /-- Records that `boot_write_img_confirmed()` was invoked. -/
  | wroteConfirmed
  /-- Records that `img_mgmt_dfu_confirmed()` (upgrade-completion observer) was invoked. -/
  | dfuConfirmed
  /-- Records that `img_mgmt_impl_log_pending(status, hash)` was invoked. -/
  | logPending (status : Int) (hash : Option (List Nat))
  /-- Records that `img_mgmt_impl_log_confirm(status, hash)` was invoked. -/
  | logConfirm (status : Int) (hash : Option (List Nat))
deriving DecidableEq, Repr

/-- Model of `img_mgmt_impl_write_pending` (`zephyr_img_mgmt.c`): rejects every slot
other than 1 with `MGMT_ERR_EINVAL` before calling the bootloader. -/
def img_mgmt_impl_write_pending (env : ImgEnv) (slot : Nat)
    (permanent : Bool) : Int × List Event :=
  if slot ≠ 1 then (MGMT_ERR_EINVAL, [])
  else
    match env.bootRequestUpgrade permanent with
    | .ok _ => (0, [.requestedUpgrade permanent])
    | .error _ => (MGMT_ERR_EUNKNOWN, [.requestedUpgrade permanent])

/-- Model of `img_mgmt_impl_write_confirmed` (`zephyr_img_mgmt.c`). -/
def img_mgmt_impl_write_confirmed (env : ImgEnv) : Int × List Event :=
  match env.bootWriteConfirmed with
  | .ok _ => (0, [.wroteConfirmed])
  | .error _ => (MGMT_ERR_EUNKNOWN, [.wroteConfirmed])

/-- Modelled from the spec: `img_mgmt_impl_log_pending` is not among the
sources (only its callers are); §4.5 specifies best-effort logging of the
outcome together with the image hash that never turns into a hard failure,
so the hook is modelled as emitting a log event and passing the given status
through unchanged. -/
def img_mgmt_impl_log_pending (status : Int) (hash : Option (List Nat))
    (evs : List Event) : Int × List Event :=
  (status, evs ++ [.logPending status hash])

/-- Modelled from the spec: `img_mgmt_impl_log_confirm` is not among the
sources; modelled exactly like `img_mgmt_impl_log_pending`. -/
def img_mgmt_impl_log_confirm (status : Int) (hash : Option (List Nat))
    (evs : List Event) : Int × List Event :=
  (status, evs ++ [.logConfirm status hash])

/-- Model of `img_mgmt_state_set_pending` (`src/unnamed/part_000`): reject a confirmed
non-loader slot, otherwise delegate to `img_mgmt_impl_write_pending`; in
either case log the outcome with the slot's content hash (absent when
unreadable). -/
def img_mgmt_state_set_pending (env : ImgEnv) (slot : Nat)
    (permanent : Bool) : Except FatalErr (Int × List Event) := do
  let state_flags ← img_mgmt_state_flags env.bootSwap env.currSlot slot
  let (rc, evs) :=
    if state_flags.confirmed = true ∧ slot ≠ 0 then
      (MGMT_ERR_EBADSTATE, ([] : List Event))
    else
      let (rc0, evs0) := img_mgmt_impl_write_pending env slot permanent
      (if rc0 ≠ 0 then MGMT_ERR_EUNKNOWN else rc0, evs0)
  let hashp : Option (List Nat) := env.readInfoHash slot
  if permanent then
    return img_mgmt_impl_log_confirm rc hashp evs
  else
    return img_mgmt_impl_log_pending rc hashp evs

/-- Model of `img_mgmt_state_confirm` (`src/unnamed/part_000`): rejected while any
slot is pending; otherwise persists the confirmed marker and notifies the
upgrade-completion observer; the outcome is logged in both cases. -/
def img_mgmt_state_confirm (env : ImgEnv) :
    Except FatalErr (Int × List Event) := do
  let p ← img_mgmt_state_any_pending env.bootSwap env.currSlot
  if p then
    return img_mgmt_impl_log_confirm MGMT_ERR_EBADSTATE none []
  else
    let (rc0, evs) := img_mgmt_impl_write_confirmed env
    let rc := if rc0 ≠ 0 then MGMT_ERR_EUNKNOWN else rc0
    return img_mgmt_impl_log_confirm rc none (evs ++ [.dfuConfirmed])

/-! ## Upload session and inspector -/

/-- The leading `struct image_header` of the image being uploaded.  The C
code reinterprets the first `sizeof(struct image_header)` bytes of
`req->img_data`; the model carries the already-decoded header, which the
code only reads after checking `data_len` covers it. -/
structure ImageHeader where
  ih_magic : Nat
  ih_load_addr : Nat
  ih_flags : Nat
  ih_ver : ImageVersion
deriving DecidableEq, Repr

/-- Model of `struct img_mgmt_upload_req`: `off` and `size` use -1 for an absent
field, as in the C decoder. -/
structure UploadReq where
  off : Int
  size : Int
  data_len : Nat
  hdr : ImageHeader
  data_sha_len : Nat
  data_sha : List Nat
  image : Int
  upgrade : Bool
deriving DecidableEq, Repr

/-- The process-wide upload session (`g_img_mgmt_state`); `area_id = -1`
means no upload is in progress. -/
structure ImgMgmtState where
  area_id : Int
  size : Int
  off : Nat
  data_sha_len : Nat
  data_sha : List Nat
deriving DecidableEq, Repr

/-- Model of `struct img_mgmt_upload_action`. -/
structure UploadAction where
  size : Int
  write_bytes : Nat
  area_id : Int
  proceed : Bool
  erase : Bool
deriving DecidableEq, Repr

/-- The `img_mgmt_err_str_*` messages assigned through the inspector's
`errstr` out-parameter. -/
inductive ErrStr where
  | hdrMalformed
  | magicMismatch
  | noSlot
  | flashOpenFailed
  | badFlashAddr
  | downgrade
deriving DecidableEq, Repr

/-- Return value of the inspector: the `MGMT_ERR_*` code, the populated
action, and the assigned error string (if any). -/
structure InspectResult where
  rc : Int
  action : UploadAction
  errstr : Option ErrStr
deriving DecidableEq, Repr

/-- The `memset(action, 0, sizeof *action)` at the top of the inspector. -/
def zeroAction : UploadAction :=
  { size := 0, write_bytes := 0, area_id := 0, proceed := false,
    erase := false }

/-- Final section of `img_mgmt_impl_upload_inspect` ("Calculate size of
flash write"), shared by the first-chunk and continuation paths.  The C
local `rem_bytes` is a `uint8_t`, hence the `% 256` on the remainder. -/
def upload_inspect_write_size (env : ImgEnv) (req : UploadReq)
    (a : UploadAction) : InspectResult :=
  let a1 := { a with write_bytes := req.data_len }
  if req.off + (req.data_len : Int) < a1.size then
    match env.flashAlign a1.area_id with
    | .error _ =>
      { rc := MGMT_ERR_EUNKNOWN, action := a1,
        errstr := some .flashOpenFailed }
    | .ok al =>
      let rem_bytes := req.data_len % al % 256
      let a2 :=
        if rem_bytes ≠ 0 then
          { a1 with write_bytes := a1.write_bytes - rem_bytes }
        else a1
      { rc := 0, action := { a2 with proceed := true }, errstr := none }
  else
    { rc := 0, action := { a1 with proceed := true }, errstr := none }

/-- Model of `img_mgmt_impl_upload_inspect` (`zephyr_img_mgmt.c`): validates an
upload request against the session and computes the action descriptor.  The
function reads but never writes the session state. -/
def img_mgmt_impl_upload_inspect (env : ImgEnv) (st : ImgMgmtState)
    (req : UploadReq) : Except FatalErr InspectResult := do
  if req.off = -1 then
    return { rc := MGMT_ERR_EINVAL, action := zeroAction,
             errstr := some .hdrMalformed }
  if req.off = 0 then
    if req.data_len < IMAGE_HEADER_SIZE then
      return { rc := MGMT_ERR_EINVAL, action := zeroAction,
               errstr := some .hdrMalformed }
    if req.size = -1 then
      return { rc := MGMT_ERR_EINVAL, action := zeroAction,
               errstr := some .hdrMalformed }
    let a1 := { zeroAction with size := req.size }
    if req.hdr.ih_magic ≠ IMAGE_MAGIC then
      return { rc := MGMT_ERR_EINVAL, action := a1,
               errstr := some .magicMismatch }
    if req.data_sha_len > IMG_MGMT_DATA_SHA_LEN then
      return { rc := MGMT_ERR_EINVAL, action := a1, errstr := none }
    if req.data_sha_len > 0 ∧ st.area_id ≠ -1 ∧
        st.data_sha_len = req.data_sha_len ∧ st.data_sha = req.data_sha then
      return { rc := 0, action := a1, errstr := none }
    let area ← img_mgmt_get_unused_slot_area_id env (req.image - 1)
    if area < 0 then
      return { rc := MGMT_ERR_ENOMEM, action := a1, errstr := some .noSlot }
    let a2 := { a1 with area_id := area }
    if env.rejectXip = true ∧
        req.hdr.ih_flags &&& IMAGE_F_ROM_FIXED_ADDR ≠ 0 then
      match env.faOff area with
      | .error _ =>
        return { rc := MGMT_ERR_EUNKNOWN, action := a2,
                 errstr := some .flashOpenFailed }
      | .ok fa_off =>
        if fa_off ≠ (req.hdr.ih_load_addr : Int) then
          return { rc := MGMT_ERR_EINVAL, action := a2,
                   errstr := some .badFlashAddr }
    if req.upgrade = true then
      match env.myVersion with
      | .error _ =>
        return { rc := MGMT_ERR_EUNKNOWN, action := a2, errstr := none }
      | .ok cur_ver =>
        if img_mgmt_vercmp cur_ver req.hdr.ih_ver ≥ 0 then
          return { rc := MGMT_ERR_EBADSTATE, action := a2,
                   errstr := some .downgrade }
    if env.lazyErase = true then
      return upload_inspect_write_size env req a2
    else
      match env.checkEmpty area with
      | .error _ =>
        return { rc := MGMT_ERR_EUNKNOWN, action := a2, errstr := none }
      | .ok empty =>
        return upload_inspect_write_size env req { a2 with erase := !empty }
  else
    let a := { zeroAction with area_id := st.area_id, size := st.size }
    if req.off ≠ (st.off : Int) then
      return { rc := 0, action := a, errstr := none }
    return upload_inspect_write_size env req a

/-- Modelled from the spec: the command handler `img_mgmt_upload` that wraps
the inspector is not among the sources.  Per §4.4 rules 2, 3 and 5, it
mutates the session only when the inspector returns success with
`proceed = true`: an offset-0 request (re)initialises the session from the
action, the executed write advances `next_offset` by the clamped length, and
reaching the declared total size tears the session down (`area_id := -1`). -/
def img_mgmt_upload_step (env : ImgEnv) (st : ImgMgmtState)
    (req : UploadReq) : ImgMgmtState :=
  match img_mgmt_impl_upload_inspect env st req with
  | .error _ => st
  | .ok r =>
    if r.rc = 0 ∧ r.action.proceed = true then
      let st1 :=
        if req.off = 0 then
          { area_id := r.action.area_id, size := r.action.size, off := 0,
            data_sha_len := req.data_sha_len, data_sha := req.data_sha }
        else st
      let st2 := { st1 with off := st1.off + r.action.write_bytes }
      if (st2.off : Int) = st2.size then { st2 with area_id := -1 } else st2
    else st

/-! ## Claims about the slot & swap-state model (C1, C2) -/

/-- C1 (counterexample).  The claim asserts that "exactly one slot has Active
unless a Revert is in progress".  At swap type `Test` (which is not `Revert`)
with current boot slot 0, the derived table gives slot 0 only `Confirmed` and
slot 1 only `Pending`, so **no** slot has `Active`; the claimed consequence is
false at this concrete input. -/
theorem state_flags_exactly_one_active_refuted :
    BOOT_SWAP_TYPE_TEST ≠ BOOT_SWAP_TYPE_REVERT ∧
    img_mgmt_state_flags BOOT_SWAP_TYPE_TEST 0 0 =
      .ok { pending := false, confirmed := true, active := false,
            permanent := false } ∧
    img_mgmt_state_flags BOOT_SWAP_TYPE_TEST 0 1 =
      .ok { pending := true, confirmed := false, active := false,
            permanent := false } ∧
    activeSlotCount BOOT_SWAP_TYPE_TEST 0 = 0 :=
  ⟨by decide, rfl, rfl, rfl⟩

/-- C1 (amended).  For every swap type in {None, Test, Permanent, Revert} and
both slots, the derived flags equal the table of spec §4.1; moreover at most
one slot has `Active`, and exactly one slot has `Active` precisely when the
swap type is `None` or `Revert` (under `Test` and `Permanent` no slot has
`Active`). -/
theorem state_flags_table_amended (curr : Nat) (h : curr < 2) :
    (img_mgmt_state_flags BOOT_SWAP_TYPE_NONE curr curr =
        .ok { pending := false, confirmed := true, active := true,
              permanent := false } ∧
      img_mgmt_state_flags BOOT_SWAP_TYPE_NONE curr (1 - curr) =
        .ok SlotFlags.none) ∧
    (img_mgmt_state_flags BOOT_SWAP_TYPE_TEST curr curr =
        .ok { pending := false, confirmed := true, active := false,
              permanent := false } ∧
      img_mgmt_state_flags BOOT_SWAP_TYPE_TEST curr (1 - curr) =
        .ok { pending := true, confirmed := false, active := false,
              permanent := false }) ∧
    (img_mgmt_state_flags BOOT_SWAP_TYPE_PERM curr curr =
        .ok { pending := false, confirmed := true, active := false,
              permanent := false } ∧
      img_mgmt_state_flags BOOT_SWAP_TYPE_PERM curr (1 - curr) =
        .ok { pending := true, confirmed := false, active := false,
              permanent := true }) ∧
    (img_mgmt_state_flags BOOT_SWAP_TYPE_REVERT curr curr =
        .ok { pending := false, confirmed := false, active := true,
              permanent := false } ∧
      img_mgmt_state_flags BOOT_SWAP_TYPE_REVERT curr (1 - curr) =
        .ok { pending := false, confirmed := true, active := false,
              permanent := false }) ∧
    (∀ s : Int,
      s = BOOT_SWAP_TYPE_NONE ∨ s = BOOT_SWAP_TYPE_TEST ∨
        s = BOOT_SWAP_TYPE_PERM ∨ s = BOOT_SWAP_TYPE_REVERT →
      (activeSlotCount s curr ≤ 1 ∧
        (activeSlotCount s curr = 1 ↔
          s = BOOT_SWAP_TYPE_NONE ∨ s = BOOT_SWAP_TYPE_REVERT))) := by
  interval_cases curr <;>
    refine ⟨⟨rfl, rfl⟩, ⟨rfl, rfl⟩, ⟨rfl, rfl⟩, ⟨rfl, rfl⟩, ?_⟩ <;>
    rintro s (rfl | rfl | rfl | rfl) <;> decide

/-- Witness for `state_flags_table_amended` at the concrete boot slot 0. -/
theorem state_flags_table_amended_witness :
    img_mgmt_state_flags BOOT_SWAP_TYPE_NONE 0 0 =
      .ok { pending := false, confirmed := true, active := true,
            permanent := false } :=
  (state_flags_table_amended 0 (by decide)).1.1

/-- C2.  Every bootloader-reported swap-type value outside the four known
values makes `img_mgmt_impl_swap_type` signal the fatal
`swapStateInconsistent` error (the C `assert(0)`), so the flag derivation for
slots 0/1 never returns flags at all; and even the inner switch of
`img_mgmt_state_flags`, fed an unknown translated value, yields the empty
flag set for the booting slot — never the {Confirmed, Active} that `None`
semantics would produce. -/
theorem unknown_swap_type_fatal (s : Int)
    (h : s ≠ BOOT_SWAP_TYPE_NONE ∧ s ≠ BOOT_SWAP_TYPE_TEST ∧
      s ≠ BOOT_SWAP_TYPE_PERM ∧ s ≠ BOOT_SWAP_TYPE_REVERT) :
    img_mgmt_impl_swap_type s = .error .swapStateInconsistent ∧
    (∀ curr query_slot : Nat, query_slot < 2 →
      img_mgmt_state_flags s curr query_slot =
        .error .swapStateInconsistent) ∧
    (∀ t : Int,
      t ≠ IMG_MGMT_SWAP_TYPE_NONE ∧ t ≠ IMG_MGMT_SWAP_TYPE_TEST ∧
        t ≠ IMG_MGMT_SWAP_TYPE_PERM ∧ t ≠ IMG_MGMT_SWAP_TYPE_REVERT →
      ∀ curr : Nat,
        img_mgmt_state_flags_of_swap t curr curr = SlotFlags.none ∧
        img_mgmt_state_flags_of_swap t curr curr ≠
          { SlotFlags.none with confirmed := true, active := true }) := by
  obtain ⟨h1, h2, h3, h4⟩ := h
  refine ⟨?_, ?_, ?_⟩
  · simp [img_mgmt_impl_swap_type, h1, h2, h3, h4]
  · intro curr q hq
    have hq01 : q = 0 ∨ q = 1 := by omega
    rcases hq01 with rfl | rfl <;>
      simp [img_mgmt_state_flags, img_mgmt_impl_swap_type, h1, h2, h3, h4,
        Except.map]
  · rintro t ⟨t1, t2, t3, t4⟩ curr
    have hd : img_mgmt_state_flags_of_swap t curr curr = SlotFlags.none := by
      simp [img_mgmt_state_flags_of_swap, t1, t2, t3, t4]
    exact ⟨hd, by rw [hd]; decide⟩

/-- Witness for `unknown_swap_type_fatal` at the concrete unknown value 5
(`BOOT_SWAP_TYPE_FAIL`). -/
theorem unknown_swap_type_fatal_witness :
    img_mgmt_impl_swap_type 5 = .error .swapStateInconsistent :=
  (unknown_swap_type_fatal 5 (by decide)).1

/-! ## Concrete fixtures used by witnesses -/

/-- A flash map with `image_0 ↦ 1`, `image_1 ↦ 2` and no further labels. -/
def wCfg : FlashMapCfg :=
  { id0 := 1, id1 := 2, hasImage2 := false, id2 := 0,
    hasImage3 := false, id3 := 0 }

/-- A concrete environment: no swap scheduled, booting from slot 0, eager
erase, all collaborators succeeding, flash alignment 4. -/
def wEnv : ImgEnv :=
  { bootSwap := BOOT_SWAP_TYPE_NONE, currSlot := 0, cfg := wCfg,
    lazyErase := false, rejectXip := false,
    myVersion := .ok { iv_major := 1, iv_minor := 2, iv_revision := 3,
                       iv_build_num := 4 },
    checkEmpty := fun _ => .ok true,
    flashAlign := fun _ => .ok 4,
    faOff := fun _ => .ok 0,
    bootRequestUpgrade := fun _ => .ok (),
    bootWriteConfirmed := .ok (),
    readInfoHash := fun _ => none }

/-- A concrete active session: area 5, 1000 declared bytes, expecting
offset 4, fingerprint `[9, 9]`. -/
def wState : ImgMgmtState :=
  { area_id := 5, size := 1000, off := 4, data_sha_len := 2,
    data_sha := [9, 9] }

/-- A concrete valid image header. -/
def wHeader : ImageHeader :=
  { ih_magic := IMAGE_MAGIC, ih_load_addr := 0, ih_flags := 0,
    ih_ver := { iv_major := 1, iv_minor := 2, iv_revision := 3,
                iv_build_num := 9 } }

/-- A continuation request whose offset 7 differs from the session's
expected offset 4. -/
def wReqResync : UploadReq :=
  { off := 7, size := -1, data_len := 10, hdr := wHeader,
    data_sha_len := 0, data_sha := [], image := 0, upgrade := false }

/-- A first-chunk request whose fingerprint matches `wState`'s. -/
def wReqResume : UploadReq :=
  { off := 0, size := 500, data_len := 64, hdr := wHeader,
    data_sha_len := 2, data_sha := [9, 9], image := 0, upgrade := false }

/-! ## Claims about the upload inspector (C3, C4) -/

/-- C3.  A continuation request (offset > 0) whose offset differs from the
session's expected offset is not an error: the inspector returns success
(`rc = 0`) with `proceed = false` (so the caller drops the data and echoes
the expected offset), and the session state is unchanged. -/
theorem upload_inspect_resync (env : ImgEnv) (st : ImgMgmtState)
    (req : UploadReq) (h0 : 0 < req.off) (hne : req.off ≠ (st.off : Int)) :
    img_mgmt_impl_upload_inspect env st req =
      .ok { rc := 0,
            action := { zeroAction with
                        area_id := st.area_id, size := st.size },
            errstr := none } ∧
    img_mgmt_upload_step env st req = st := by
  have hm1 : ¬ (req.off = -1) := by omega
  have h00 : ¬ (req.off = 0) := by omega
  constructor
  · simp [img_mgmt_impl_upload_inspect, hm1, h00, hne, pure, Except.pure, bind, Except.bind]
  · simp [img_mgmt_upload_step, img_mgmt_impl_upload_inspect, hm1, h00, hne,
      zeroAction, pure, Except.pure, bind, Except.bind]

/-- Witness for `upload_inspect_resync`: offset 7 against expected offset 4. -/
theorem upload_inspect_resync_witness :
    img_mgmt_impl_upload_inspect wEnv wState wReqResync =
      .ok { rc := 0,
            action := { zeroAction with
                        area_id := wState.area_id, size := wState.size },
            errstr := none } ∧
    img_mgmt_upload_step wEnv wState wReqResync = wState :=
  upload_inspect_resync wEnv wState wReqResync (by decide) (by decide)

/-- C4.  A first-chunk request (offset 0) passing the header checks and
carrying a non-empty fingerprint equal to an already-active session's
fingerprint is answered with immediate success and `proceed = false`; the
result is a constant not depending on the environment — no slot is selected,
no version is compared, no flash is touched — and the session is unchanged. -/
theorem upload_inspect_resume_idempotent (env : ImgEnv) (st : ImgMgmtState)
    (req : UploadReq)
    (hoff : req.off = 0)
    (hlen : IMAGE_HEADER_SIZE ≤ req.data_len)
    (hsize : req.size ≠ -1)
    (hmagic : req.hdr.ih_magic = IMAGE_MAGIC)
    (hshamax : req.data_sha_len ≤ IMG_MGMT_DATA_SHA_LEN)
    (hsha : 0 < req.data_sha_len)
    (hactive : st.area_id ≠ -1)
    (hshalen : st.data_sha_len = req.data_sha_len)
    (hshaeq : st.data_sha = req.data_sha) :
    img_mgmt_impl_upload_inspect env st req =
      .ok { rc := 0, action := { zeroAction with size := req.size },
            errstr := none } ∧
    img_mgmt_upload_step env st req = st := by
  have hm1 : ¬ (req.off = -1) := by omega
  have hlen' : ¬ (req.data_len < IMAGE_HEADER_SIZE) := Nat.not_lt.mpr hlen
  have hshamax' : ¬ (req.data_sha_len > IMG_MGMT_DATA_SHA_LEN) :=
    Nat.not_lt.mpr hshamax
  constructor
  · simp [img_mgmt_impl_upload_inspect, hm1, hoff, hlen', hsize, hmagic,
      hshamax', hsha, hactive, hshalen, hshaeq, pure, Except.pure, bind, Except.bind]
  · simp [img_mgmt_upload_step, img_mgmt_impl_upload_inspect, hm1, hoff,
      hlen', hsize, hmagic, hshamax', hsha, hactive, hshalen, hshaeq,
      zeroAction, pure, Except.pure, bind, Except.bind]

/-- Witness for `upload_inspect_resume_idempotent`: re-submission of the
first chunk with the fingerprint `[9, 9]` of the active session `wState`. -/
theorem upload_inspect_resume_idempotent_witness :
    img_mgmt_impl_upload_inspect wEnv wState wReqResume =
      .ok { rc := 0, action := { zeroAction with size := wReqResume.size },
            errstr := none } ∧
    img_mgmt_upload_step wEnv wState wReqResume = wState :=
  upload_inspect_resume_idempotent wEnv wState wReqResume (by decide)
    (by decide) (by decide) (by decide) (by decide) (by decide) (by decide)
    (by decide) (by decide)

/-! ## Claim about write-size clamping (C5) -/

/-- Like `wEnv` but with flash write alignment 512. -/
def wEnvAlign512 : ImgEnv := { wEnv with flashAlign := fun _ => .ok 512 }

/-- A continuation request matching `wState`'s expected offset 4, carrying
300 data bytes (non-final, since 4 + 300 < 1000). -/
def wReqClamp : UploadReq :=
  { off := 4, size := -1, data_len := 300, hdr := wHeader,
    data_sha_len := 0, data_sha := [], image := 0, upgrade := false }

/-- C5 (counterexample).  With destination flash alignment A = 512 and a
non-final accepted chunk of length L = 300, the code computes a write length
of 256 because the C remainder variable is a `uint8_t`
(`rem_bytes = (300 % 512) % 256 = 44`); but the largest multiple of 512 that
is ≤ 300 is 512·(300/512) = 0, and 256 is not even a multiple of 512.  The
claim as stated is therefore false at this input. -/
theorem upload_clamp_not_align_multiple :
    img_mgmt_impl_upload_inspect wEnvAlign512 wState wReqClamp =
      .ok { rc := 0,
            action := { size := 1000, write_bytes := 256, area_id := 5,
                        proceed := true, erase := false },
            errstr := none } ∧
    ¬ (256 = 512 * (300 / 512)) ∧ ¬ (256 % 512 = 0) :=
  ⟨rfl, by decide, by decide⟩

/-- C5 (amended).  For an accepted chunk with destination alignment A > 0:
if the chunk does not reach the declared total size, the computed write
length is L − ((L mod A) mod 256) (the C remainder is truncated to
`uint8_t`), which equals the largest multiple of A that is ≤ L, namely
A·(L/A), whenever L mod A < 256 — in particular whenever A ≤ 256; a chunk
that reaches the declared total size is never clamped. -/
theorem upload_write_size_clamp (env : ImgEnv) (req : UploadReq)
    (a : UploadAction) (al : Nat)
    (hal : env.flashAlign a.area_id = .ok al) (hpos : 0 < al) :
    (req.off + (req.data_len : Int) < a.size →
      req.data_len % al < 256 →
      upload_inspect_write_size env req a =
        { rc := 0,
          action := { a with
                      write_bytes := al * (req.data_len / al),
                      proceed := true },
          errstr := none }) ∧
    (a.size ≤ req.off + (req.data_len : Int) →
      upload_inspect_write_size env req a =
        { rc := 0,
          action := { a with write_bytes := req.data_len, proceed := true },
          errstr := none }) ∧
    (∀ st : ImgMgmtState, 0 < req.off → req.off = (st.off : Int) →
      img_mgmt_impl_upload_inspect env st req =
        .ok (upload_inspect_write_size env req
          { zeroAction with area_id := st.area_id, size := st.size })) := by
  refine ⟨?_, ?_, ?_⟩
  · intro hlt hrem
    have hd := Nat.div_add_mod req.data_len al
    have hmod : req.data_len % al % 256 = req.data_len % al :=
      Nat.mod_eq_of_lt hrem
    by_cases hz : req.data_len % al = 0
    · have hwb : req.data_len = al * (req.data_len / al) := by omega
      simp [upload_inspect_write_size, hal, hlt, hmod, hz, ← hwb]
    · have hwb : req.data_len - req.data_len % al =
          al * (req.data_len / al) := by omega
      simp [upload_inspect_write_size, hal, hlt, hmod, hz, hwb]
  · intro hge
    have hnlt : ¬ (req.off + (req.data_len : Int) < a.size) := not_lt.mpr hge
    simp [upload_inspect_write_size, hnlt]
  · intro st hpos0 hoffeq
    have hm1 : ¬ (req.off = -1) := by omega
    have h00 : ¬ (req.off = 0) := by omega
    have hst0 : ¬ (st.off = 0) := by omega
    simp [img_mgmt_impl_upload_inspect, hm1, h00, hst0, hoffeq, pure,
      Except.pure, bind, Except.bind]

/-- Witness for `upload_write_size_clamp`: alignment 4, non-final chunk of
10 bytes at offset 4 against total size 1000, clamped to 8 = 4·(10/4). -/
theorem upload_write_size_clamp_witness :
    upload_inspect_write_size wEnv { wReqClamp with data_len := 10 }
        { zeroAction with area_id := 5, size := 1000 } =
      { rc := 0,
        action := { zeroAction with
                    area_id := 5, size := 1000,
                    write_bytes := 4 * (10 / 4), proceed := true },
        errstr := none } :=
  (upload_write_size_clamp wEnv { wReqClamp with data_len := 10 }
      { zeroAction with area_id := 5, size := 1000 } 4 rfl (by decide)).1
    (by decide) (by decide)

/-! ## Claim about slot selection (C6) -/

/-- C6.  Auto-selection (requested slot −1) scans slots 0 and 1 in order and
returns the area id of the first slot not in use (`slot_in_use` checks
exactly {Active, Confirmed, Pending}), returning −1 — which the caller maps
to the no-slot-available error — when both are in use; a requested slot
s ≥ 2 is resolved directly through `zephyr_img_mgmt_flash_area_id` with no
in-use check at all. -/
theorem slot_selection_spec (env : ImgEnv) (u0 u1 : Bool)
    (h0 : img_mgmt_slot_in_use env.bootSwap env.currSlot 0 = .ok u0)
    (h1 : img_mgmt_slot_in_use env.bootSwap env.currSlot 1 = .ok u1) :
    (img_mgmt_get_unused_slot_area_id env (-1) =
      .ok (if u0 = false then zephyr_img_mgmt_flash_area_id env.cfg 0
           else if u1 = false then zephyr_img_mgmt_flash_area_id env.cfg 1
           else -1)) ∧
    (∀ s : Int, 2 ≤ s →
      img_mgmt_get_unused_slot_area_id env s =
        .ok (zephyr_img_mgmt_flash_area_id env.cfg s)) := by
  have hne0 : ¬ (zephyr_img_mgmt_flash_area_id env.cfg 0 = -1) := by
    simp [zephyr_img_mgmt_flash_area_id]
    omega
  have hne1 : ¬ (zephyr_img_mgmt_flash_area_id env.cfg 1 = -1) := by
    simp [zephyr_img_mgmt_flash_area_id]
    omega
  constructor
  · cases u0 with
    | false =>
      simp [img_mgmt_get_unused_slot_area_id, h0, hne0, bind, Except.bind,
        pure, Except.pure]
    | true =>
      cases u1 with
      | false =>
        simp [img_mgmt_get_unused_slot_area_id, h0, h1, hne1, bind,
          Except.bind, pure, Except.pure]
      | true =>
        simp [img_mgmt_get_unused_slot_area_id, h0, h1, bind, Except.bind,
          pure, Except.pure]
  · intro s hs
    have c1 : ¬ (s < -1) := by omega
    have c2 : ¬ (s = -1) := by omega
    have c3 : ¬ (s < 2) := by omega
    simp [img_mgmt_get_unused_slot_area_id, c1, c2, c3, bind, Except.bind,
      pure, Except.pure]

/-- Witness for `slot_selection_spec`: with no swap scheduled and slot 0
booting, slot 0 is in use and slot 1 is free, so auto-selection returns
slot 1's area id 2. -/
theorem slot_selection_spec_witness :
    img_mgmt_get_unused_slot_area_id wEnv (-1) = .ok 2 := by
  have h := (slot_selection_spec wEnv true false rfl rfl).1
  simpa using h

/-! ## Claim about upgrade-only version gating (C7) -/

/-- Helper: `img_mgmt_vercmp` is the lexicographic three-way comparison on
(major, minor, revision), with the build number ignored. -/
theorem img_mgmt_vercmp_lex (a b : ImageVersion) :
    (img_mgmt_vercmp a b = 0 ↔
      a.iv_major = b.iv_major ∧ a.iv_minor = b.iv_minor ∧
        a.iv_revision = b.iv_revision) ∧
    (img_mgmt_vercmp a b = -1 ↔
      (a.iv_major < b.iv_major ∨
        (a.iv_major = b.iv_major ∧ a.iv_minor < b.iv_minor) ∨
        (a.iv_major = b.iv_major ∧ a.iv_minor = b.iv_minor ∧
          a.iv_revision < b.iv_revision))) ∧
    (img_mgmt_vercmp a b = 1 ↔
      (b.iv_major < a.iv_major ∨
        (a.iv_major = b.iv_major ∧ b.iv_minor < a.iv_minor) ∨
        (a.iv_major = b.iv_major ∧ a.iv_minor = b.iv_minor ∧
          b.iv_revision < a.iv_revision))) ∧
    (∀ n m : Nat,
      img_mgmt_vercmp { a with iv_build_num := n }
          { b with iv_build_num := m } = img_mgmt_vercmp a b) := by
  refine ⟨?_, ?_, ?_, ?_⟩
  · unfold img_mgmt_vercmp
    split_ifs <;> first
      | omega
      | (simp only [false_iff, true_iff]; omega)
  · unfold img_mgmt_vercmp
    split_ifs <;> first
      | omega
      | (simp only [false_iff, true_iff]; omega)
  · unfold img_mgmt_vercmp
    split_ifs <;> first
      | omega
      | (simp only [false_iff, true_iff]; omega)
  · intro n m; simp [img_mgmt_vercmp]

/-- C7.  On a first-chunk request with `upgrade` set (that passes the header
checks, takes no resumption shortcut, and has a slot available), the
inspector rejects with the bad-state code and the downgrade message exactly
when the running version compares ≥ the new image's version, where the
comparison is lexicographic on (major, minor, revision) with the build
number ignored (`img_mgmt_vercmp_lex` restated in the last conjunct). -/
theorem upgrade_only_rejects_downgrade (env : ImgEnv) (st : ImgMgmtState)
    (req : UploadReq) (cur : ImageVersion) (area : Int)
    (hoff : req.off = 0)
    (hlen : IMAGE_HEADER_SIZE ≤ req.data_len)
    (hsize : req.size ≠ -1)
    (hmagic : req.hdr.ih_magic = IMAGE_MAGIC)
    (hsha : req.data_sha_len = 0)
    (harea : img_mgmt_get_unused_slot_area_id env (req.image - 1) = .ok area)
    (hapos : 0 ≤ area)
    (hxip : env.rejectXip = false)
    (hupg : req.upgrade = true)
    (hver : env.myVersion = .ok cur) :
    (0 ≤ img_mgmt_vercmp cur req.hdr.ih_ver →
      img_mgmt_impl_upload_inspect env st req =
        .ok { rc := MGMT_ERR_EBADSTATE,
              action := { zeroAction with
                          size := req.size, area_id := area },
              errstr := some .downgrade }) ∧
    (img_mgmt_vercmp cur req.hdr.ih_ver < 0 →
      env.lazyErase = true → req.size ≤ (req.data_len : Int) →
      img_mgmt_impl_upload_inspect env st req =
        .ok { rc := 0,
              action := { zeroAction with
                          size := req.size, area_id := area,
                          write_bytes := req.data_len, proceed := true },
              errstr := none }) ∧
    (∀ n m : Nat,
      img_mgmt_vercmp { cur with iv_build_num := n }
          { req.hdr.ih_ver with iv_build_num := m } =
        img_mgmt_vercmp cur req.hdr.ih_ver) := by
  have hm1 : ¬ (req.off = -1) := by omega
  have hlen' : ¬ (req.data_len < IMAGE_HEADER_SIZE) := Nat.not_lt.mpr hlen
  have hsha' : ¬ (req.data_sha_len > IMG_MGMT_DATA_SHA_LEN) := by
    rw [hsha]; decide
  have hsha0 : ¬ (0 < req.data_sha_len) := by omega
  have hneg : ¬ (area < 0) := not_lt.mpr hapos
  refine ⟨?_, ?_, (img_mgmt_vercmp_lex cur req.hdr.ih_ver).2.2.2⟩
  · intro hge
    have hge' : img_mgmt_vercmp cur req.hdr.ih_ver ≥ 0 := hge
    simp [img_mgmt_impl_upload_inspect, hm1, hoff, hlen', hsize, hmagic,
      hsha', hsha0, harea, hneg, hxip, hupg, hver, hge', pure, Except.pure,
      bind, Except.bind]
  · intro hlt hlazy hfin
    have hge' : ¬ (img_mgmt_vercmp cur req.hdr.ih_ver ≥ 0) := by omega
    have hnlt : ¬ ((0 : Int) + (req.data_len : Int) < req.size) := by omega
    simp [img_mgmt_impl_upload_inspect, hm1, hoff, hlen', hsize, hmagic,
      hsha', hsha0, harea, hneg, hxip, hupg, hver, hge', hlazy,
      upload_inspect_write_size, hnlt, pure, Except.pure, bind, Except.bind]
    intro hcon
    exact absurd hcon (by omega)

/-- Witness for `upgrade_only_rejects_downgrade`: the new image's version
1.2.3+9 differs from the running 1.2.3+4 only in the build number, so the
comparison yields Equal and the upload is rejected as a downgrade. -/
theorem upgrade_only_rejects_downgrade_witness :
    img_mgmt_impl_upload_inspect wEnv wState
        { off := 0, size := 500, data_len := 64, hdr := wHeader,
          data_sha_len := 0, data_sha := [], image := 0, upgrade := true } =
      .ok { rc := MGMT_ERR_EBADSTATE,
            action := { zeroAction with size := 500, area_id := 2 },
            errstr := some .downgrade } :=
  (upgrade_only_rejects_downgrade wEnv wState
      { off := 0, size := 500, data_len := 64, hdr := wHeader,
        data_sha_len := 0, data_sha := [], image := 0, upgrade := true }
      { iv_major := 1, iv_minor := 2, iv_revision := 3, iv_build_num := 4 }
      2 (by decide) (by decide) (by decide) (by decide) (by decide) rfl
      (by decide) rfl (by decide) rfl).1 (by decide)

/-! ## Claims about the state-transition operations (C8, C9, C10) -/

/-- Like `wEnv` but with a test swap scheduled (slot 1 is pending). -/
def wEnvTest : ImgEnv := { wEnv with bootSwap := BOOT_SWAP_TYPE_TEST }

/-- Like `wEnv` but with a revert in progress (slot 1 is confirmed). -/
def wEnvRevert : ImgEnv := { wEnv with bootSwap := BOOT_SWAP_TYPE_REVERT }

/-- C8.  `img_mgmt_state_confirm` fails with the bad-state code whenever
either slot reports Pending — without invoking `boot_write_img_confirmed`
or the upgrade-completion observer (only the log hook runs) — and only when
no slot is pending does it delegate to the boot-state collaborator to
persist the confirmed marker and notify the observer, logging the resulting
status. -/
theorem confirm_rejects_when_pending (env : ImgEnv) :
    (img_mgmt_state_any_pending env.bootSwap env.currSlot = .ok true →
      img_mgmt_state_confirm env =
        .ok (MGMT_ERR_EBADSTATE,
          [Event.logConfirm MGMT_ERR_EBADSTATE none])) ∧
    (img_mgmt_state_any_pending env.bootSwap env.currSlot = .ok false →
      img_mgmt_state_confirm env =
        .ok ((img_mgmt_impl_write_confirmed env).1,
          [Event.wroteConfirmed, Event.dfuConfirmed,
            Event.logConfirm (img_mgmt_impl_write_confirmed env).1 none])) := by
  constructor
  · intro hp
    simp [img_mgmt_state_confirm, hp, img_mgmt_impl_log_confirm, bind,
      Except.bind, pure, Except.pure]
  · intro hp
    cases hwc : env.bootWriteConfirmed with
    | ok u =>
      simp [img_mgmt_state_confirm, hp, img_mgmt_impl_log_confirm,
        img_mgmt_impl_write_confirmed, hwc, bind, Except.bind, pure,
        Except.pure, MGMT_ERR_EUNKNOWN]
    | error e =>
      simp [img_mgmt_state_confirm, hp, img_mgmt_impl_log_confirm,
        img_mgmt_impl_write_confirmed, hwc, bind, Except.bind, pure,
        Except.pure, MGMT_ERR_EUNKNOWN]

/-- Witness for `confirm_rejects_when_pending`: with a test swap scheduled,
slot 1 is pending and confirm is rejected as bad-state, with only the log
event emitted. -/
theorem confirm_rejects_when_pending_witness :
    img_mgmt_state_confirm wEnvTest =
      .ok (MGMT_ERR_EBADSTATE,
        [Event.logConfirm MGMT_ERR_EBADSTATE none]) :=
  (confirm_rejects_when_pending wEnvTest).1 rfl

/-- C9.  `img_mgmt_state_set_pending` rejects with the bad-state code when
the slot's derived flags contain Confirmed and the slot is not the
primary/loader slot 0; and in every case whose flag derivation succeeds the
emitted event trace ends with a log event carrying the returned status
together with the slot's content hash — `none` (absent) when the hash is
unreadable, which never changes the returned status. -/
theorem set_pending_confirmed_guard (env : ImgEnv) (slot : Nat)
    (permanent : Bool) (fl : SlotFlags)
    (hfl : img_mgmt_state_flags env.bootSwap env.currSlot slot = .ok fl) :
    (fl.confirmed = true → slot ≠ 0 →
      img_mgmt_state_set_pending env slot permanent =
        .ok (MGMT_ERR_EBADSTATE,
          [if permanent then
             Event.logConfirm MGMT_ERR_EBADSTATE (env.readInfoHash slot)
           else
             Event.logPending MGMT_ERR_EBADSTATE (env.readInfoHash slot)])) ∧
    (∀ (rc : Int) (evs : List Event),
      img_mgmt_state_set_pending env slot permanent = .ok (rc, evs) →
      evs.getLast? =
        some (if permanent then Event.logConfirm rc (env.readInfoHash slot)
              else Event.logPending rc (env.readInfoHash slot))) := by
  constructor
  · intro hc hs
    cases permanent <;>
      simp [img_mgmt_state_set_pending, hfl, hc, hs,
        img_mgmt_impl_log_confirm, img_mgmt_impl_log_pending, bind,
        Except.bind, pure, Except.pure]
  · intro rc evs h
    cases permanent <;>
      (simp [img_mgmt_state_set_pending, hfl, img_mgmt_impl_log_confirm,
         img_mgmt_impl_log_pending, bind, Except.bind, pure,
         Except.pure] at h
       obtain ⟨rfl, rfl⟩ := h
       rw [List.getLast?_append_cons]
       simp)

/-- Witness for `set_pending_confirmed_guard`: during a revert, slot 1's
flags are {Confirmed}, so queueing it is rejected as bad-state, logged with
the (absent) hash. -/
theorem set_pending_confirmed_guard_witness :
    img_mgmt_state_set_pending wEnvRevert 1 false =
      .ok (MGMT_ERR_EBADSTATE,
        [Event.logPending MGMT_ERR_EBADSTATE (wEnvRevert.readInfoHash 1)]) :=
  (set_pending_confirmed_guard wEnvRevert 1 false
      { pending := false, confirmed := true, active := false,
        permanent := false } rfl).1 rfl (by decide)

/-- C10.  `img_mgmt_impl_write_pending` rejects every slot other than 1 with
the invalid-argument code before contacting the bootloader (no
`requestedUpgrade` event); consequently `img_mgmt_state_set_pending` can
only return success (status 0) when targeting slot 1 — even slot 0, which
the Confirmed guard alone would permit, cannot succeed. -/
theorem write_pending_only_slot_one :
    (∀ (env : ImgEnv) (slot : Nat) (permanent : Bool), slot ≠ 1 →
      img_mgmt_impl_write_pending env slot permanent =
        (MGMT_ERR_EINVAL, [])) ∧
    (∀ (env : ImgEnv) (slot : Nat) (permanent : Bool) (rc : Int)
        (evs : List Event),
      img_mgmt_state_set_pending env slot permanent = .ok (rc, evs) →
      rc = 0 → slot = 1) := by
  constructor
  · intro env slot permanent hs
    simp [img_mgmt_impl_write_pending, hs]
  · intro env slot permanent rc evs h hrc
    by_contra hs1
    cases hfl : img_mgmt_state_flags env.bootSwap env.currSlot slot with
    | error e =>
      simp [img_mgmt_state_set_pending, hfl, bind, Except.bind] at h
    | ok fl =>
      by_cases hg : fl.confirmed = true ∧ slot ≠ 0
      · cases permanent <;>
          simp [img_mgmt_state_set_pending, hfl, hg,
            img_mgmt_impl_log_confirm, img_mgmt_impl_log_pending, bind,
            Except.bind, pure, Except.pure, MGMT_ERR_EBADSTATE, hrc] at h
      · cases permanent <;>
          simp [img_mgmt_state_set_pending, hfl, hg,
            img_mgmt_impl_write_pending, hs1, img_mgmt_impl_log_confirm,
            img_mgmt_impl_log_pending, bind, Except.bind, pure, Except.pure,
            MGMT_ERR_EINVAL, MGMT_ERR_EUNKNOWN, hrc] at h

/-- Witness for `write_pending_only_slot_one`: the primary slot 0 is
rejected by the underlying write-pending operation with the
invalid-argument code and no bootloader interaction. -/
theorem write_pending_only_slot_one_witness :
    img_mgmt_impl_write_pending wEnv 0 false = (MGMT_ERR_EINVAL, []) :=
  write_pending_only_slot_one.1 wEnv 0 false (by decide)

end Mcumgr
